import Mathlib

/-!
The ticket adapter of `server.js` (integration-backend).

An embedding of the two HTTP handlers of `src/server.js`
(`POST /create-ticket`, `GET /tickets`) and of the two helpers they call
(`getOrCreateUser`, `getPriorityIdByName`).

* Values that arrive from the client (the parsed JSON body, the parsed query
  string) are untyped JavaScript values, `JSVal`.
* A string conversion that throws a `TypeError` is a failure of the enclosing
  `try` block, at the place where the source evaluates the template literal.
* Every `axios` call is recorded as a `Call`; a handler returns its HTTP
  response together with the list of calls it issued, in order.
* The issue tracker is a `Backend`: for each of the five operations the server
  consumes, a function from the calls issued so far and the current call to
  either a rejection (`none`: network error or non-2xx status) or the response
  data in the shape of the tracker's interface.
* `String.prototype.toLowerCase` belongs to the JavaScript runtime and is a
  parameter, `toLowerCase`, of every definition that calls it.
* `console.error` output is not modelled.
-/

namespace IntegrationBackend

/-! ## JavaScript values -/

/-- JavaScript values as they occur in this program: the JSON values a client
can send, `undefined`, and built-in functions (reachable only as properties
inherited from `Object.prototype`). A number is given by the text that
`Number.prototype.toString` prints for it (`0`, `10`, `1.5`, `1e+21`), which is
all the program observes of a number besides its truthiness; `-0` prints as
`0`. The fields of an object are its own properties, an association list read
at the first occurrence of a key. -/
inductive JSVal where
  | undefined
  | null
  | bool (b : Bool)
  | num (text : String)
  | str (s : String)
  | arr (xs : List JSVal)
  | obj (fields : List (String × JSVal))
  | func (name : String)

namespace JSVal

/-- The values that `Array.prototype.join` prints as the empty string, and on
which a property read throws a `TypeError`. -/
def isNullish : JSVal → Bool
  | undefined => true
  | null => true
  | _ => false

/-- JavaScript `ToBoolean`: the operand test of `!v`. The falsy numbers are
zero and `NaN`. -/
def truthy : JSVal → Bool
  | undefined => false
  | null => false
  | bool b => b
  | num text => text != "0" && text != "NaN"
  | str s => s != ""
  | arr _ => true
  | obj _ => true
  | func _ => true

mutual
/-- JavaScript `ToString`, as applied by a template literal `${v}`; `none` is
a thrown `TypeError`. An object is converted by its `toString` method: the one
inherited from `Object.prototype` prints `[object Object]`, while an own
`toString` property of a JSON object is never callable, and then neither
`toString` nor `valueOf` yields a primitive and the conversion throws. An array
is converted by `join`. -/
def toStr : JSVal → Option String
  | undefined => some "undefined"
  | null => some "null"
  | bool true => some "true"
  | bool false => some "false"
  | num text => some text
  | str s => some s
  | arr xs => joinElems true xs
  | obj fields =>
    match fields.lookup "toString" with
    | some _ => none
    | none => some "[object Object]"
  | func n => some ("function " ++ n ++ "() \x7b [native code] \x7d")
termination_by structural v => v
/-- The body of `Array.prototype.join(",")`: `null` and `undefined` elements
print as the empty string, every other element by `ToString`. -/
def joinElems (first : Bool) : List JSVal → Option String
  | [] => some ""
  | x :: rest =>
    match (if x.isNullish then some "" else toStr x), joinElems false rest with
    | some a, some b => some ((if first then "" else ",") ++ a ++ b)
    | _, _ => none
termination_by structural xs => xs
end

end JSVal

open JSVal

/-- The lower-casing of the letters `A` to `Z`, every other character kept:
what `String.prototype.toLowerCase` computes on ASCII text. It stands for the
runtime's function in the evaluations on ASCII sample data. -/
def asciiLowerCase (s : String) : String := String.mk (s.data.map Char.toLower)

/-- The properties every ordinary object inherits from `Object.prototype`:
the value read under the name `k`, `undefined` when there is none. The
`__proto__` getter yields `Object.prototype` itself, an object without
enumerable fields. -/
def objectPrototype (k : String) : JSVal :=
  if k = "constructor" then .func "Object"
  else if k = "__proto__" then .obj []
  else if k ∈ ["hasOwnProperty", "isPrototypeOf", "propertyIsEnumerable", "toLocaleString",
      "toString", "valueOf", "__defineGetter__", "__defineSetter__", "__lookupGetter__",
      "__lookupSetter__"] then .func k
  else .undefined

/-- The property read `v[k]` (and `v.k`, and the destructuring `const {k} = v`)
on a value that is not `null` or `undefined`: an own field first, then the
prototype chain. For values other than objects only the part of the chain
shared with objects is given; the program reads just `email` and `username` on
such values, names that no built-in prototype defines. -/
def getProp : JSVal → String → JSVal
  | .obj fields, k =>
    match fields.lookup k with
    | some v => v
    | none => objectPrototype k
  | _, k => objectPrototype k

/-- The assignment `map[k] = v` of a string `v` on an ordinary object with the
own fields `map`. Under the key `__proto__` the assignment reaches the setter
of `Object.prototype`, which ignores a value that is not an object or `null`. -/
def setProp (map : List (String × JSVal)) (k : String) (v : JSVal) : List (String × JSVal) :=
  if k = "__proto__" then map else (k, v) :: map

/-! ## Configuration, outbound calls, backend -/

/-- The process configuration read at start-up. `JIRA_BASE_URL` and
`JIRA_PROJECT_KEY` are environment variables, a string or unset; `auth` is the
base64 text computed once from `JIRA_EMAIL` and `JIRA_API_TOKEN`. -/
structure Config where
  JIRA_BASE_URL : Option String
  JIRA_PROJECT_KEY : Option String
  auth : String

/-- An environment variable inside a template literal: an unset variable is
`undefined` and prints as such. -/
def envText : Option String → String
  | some s => s
  | none => "undefined"

/-- An environment variable as a value. -/
def envValue : Option String → JSVal
  | some s => .str s
  | none => .undefined

/-- The five `axios` call sites of `server.js`. -/
inductive Endpoint where
  | userSearch
  | userCreate
  | priorityList
  | issueCreate
  | issueSearch
deriving DecidableEq, Repr

/-- One outbound call: the call site, the URL, the `params` option (query
parameters), the request body and the headers, as handed to `axios`. -/
structure Call where
  endpoint : Endpoint
  url : String
  params : JSVal
  data : JSVal
  headers : JSVal

/-- The headers attached to every outbound call. -/
def headers (cfg : Config) : JSVal :=
  .obj [("Authorization", .str ("Basic " ++ cfg.auth)), ("Content-Type", .str "application/json")]

/-- A backend user account, as far as the server reads it. -/
structure User where
  accountId : String

/-- A backend priority, as far as the server reads it. -/
structure Priority where
  name : String
  id : String

/-- The data of a successful issue creation, as far as the server reads it. -/
structure CreatedIssue where
  key : String

/-- The data of a successful issue search, as far as the server reads it. -/
structure SearchPage where
  issues : JSVal
  total : JSVal
  startAt : JSVal
  maxResults : JSVal

/-- The issue tracker. Each operation sees the calls issued before and the
current call, and either rejects (`none`) or answers with data. -/
structure Backend where
  searchUsers : List Call → Call → Option (List User)
  createUser : List Call → Call → Option User
  listPriorities : List Call → Call → Option (List Priority)
  createIssue : List Call → Call → Option CreatedIssue
  searchIssues : List Call → Call → Option SearchPage

/-- An HTTP response of the server: `res.status(n).send(text)` has the text as
body, `res.json(o)` has status 200 and the object as body. -/
structure Response where
  status : Nat
  body : JSVal

/-! ## The helpers -/

/-- The user-search call of `getOrCreateUser`, for the text `query` that the
URL template printed for the email. -/
def userSearchCall (cfg : Config) (query : String) : Call :=
  { endpoint := .userSearch
    url := envText cfg.JIRA_BASE_URL ++ "/rest/api/3/user/search?query=" ++ query
    params := .undefined
    data := .undefined
    headers := headers cfg }

/-- The account-creation call of `getOrCreateUser`. -/
def userCreateCall (cfg : Config) (email : JSVal) : Call :=
  { endpoint := .userCreate
    url := envText cfg.JIRA_BASE_URL ++ "/rest/api/3/user"
    params := .undefined
    data := .obj [("emailAddress", email), ("products", .arr [.str "jira-software"])]
    headers := headers cfg }

/-- `getOrCreateUser(email, username)`, run after the calls `hist`: the account
identifier returned (`none` when the function throws) and the calls issued.
The URL template is evaluated inside the `try`, before the search call: an
email without a string conversion makes the function throw with no call. -/
def getOrCreateUser (cfg : Config) (be : Backend) (hist : List Call) (email _username : JSVal) :
    Option JSVal × List Call :=
  match toStr email with
  | none => (none, [])
  | some query =>
    match be.searchUsers hist (userSearchCall cfg query) with
    | none => (none, [userSearchCall cfg query])
    | some [] =>
      match be.createUser (hist ++ [userSearchCall cfg query]) (userCreateCall cfg email) with
      | none => (none, [userSearchCall cfg query, userCreateCall cfg email])
      | some created =>
        (some (.str created.accountId), [userSearchCall cfg query, userCreateCall cfg email])
    | some (first :: _) => (some (.str first.accountId), [userSearchCall cfg query])

/-- The priority-enumeration call of `getPriorityIdByName`. -/
def priorityListCall (cfg : Config) : Call :=
  { endpoint := .priorityList
    url := envText cfg.JIRA_BASE_URL ++ "/rest/api/3/priority"
    params := .undefined
    data := .undefined
    headers := headers cfg }

/-- The `reduce` of `getPriorityIdByName`: the own fields of `priorityMap`. -/
def priorityMap (toLowerCase : String → String) (ps : List Priority) : List (String × JSVal) :=
  ps.foldl (fun map priority => setProp map (toLowerCase priority.name) (.str priority.id)) []

/-- `getPriorityIdByName(priorityName)`, run after the calls `hist`: the value
returned (`none` when the function throws) and the calls issued. A
`priorityName` that is not a string has no `toLowerCase` method, and the
`TypeError` is caught like the other errors. -/
def getPriorityIdByName (toLowerCase : String → String) (cfg : Config) (be : Backend)
    (hist : List Call) (priorityName : JSVal) : Option JSVal × List Call :=
  match be.listPriorities hist (priorityListCall cfg) with
  | none => (none, [priorityListCall cfg])
  | some ps =>
    match priorityName with
    | .str name =>
      if !(getProp (.obj (priorityMap toLowerCase ps)) (toLowerCase name)).truthy then
        (none, [priorityListCall cfg])
      else
        (some (getProp (.obj (priorityMap toLowerCase ps)) (toLowerCase name)),
          [priorityListCall cfg])
    | _ => (none, [priorityListCall cfg])

/-! ## `POST /create-ticket` -/

/-- The rich-text document of the handler, for the five texts its template
literals printed. -/
def descriptionDoc (summary priority link collection username : String) : JSVal :=
  .obj [("type", .str "doc"), ("version", .num "1"),
    ("content", .arr [
      .obj [("type", .str "paragraph"),
        ("content", .arr [
          .obj [("type", .str "text"), ("text", .str ("Summary: " ++ summary))],
          .obj [("type", .str "hardBreak")],
          .obj [("type", .str "text"), ("text", .str ("Priority: " ++ priority))],
          .obj [("type", .str "hardBreak")],
          .obj [("type", .str "text"), ("text", .str ("Link: " ++ link))],
          .obj [("type", .str "hardBreak")],
          .obj [("type", .str "text"), ("text", .str ("Collection: " ++ collection))],
          .obj [("type", .str "hardBreak")],
          .obj [("type", .str "text"), ("text", .str ("Reported by: " ++ username))]])]])]

/-- The `description` of the handler: `none` when one of its five template
literals throws. -/
def description (summary priority link collection username : JSVal) : Option JSVal :=
  match toStr summary, toStr priority, toStr link, toStr collection, toStr username with
  | some s, some p, some l, some c, some u => some (descriptionDoc s p l c u)
  | _, _, _, _, _ => none

/-- The `fields` object of the issue-creation call. -/
def issueFields (cfg : Config) (summary link collection username
    reporterAccountId priorityId description : JSVal) : JSVal :=
  .obj [("project", .obj [("key", envValue cfg.JIRA_PROJECT_KEY)]),
    ("summary", summary),
    ("issuetype", .obj [("name", .str "Integration")]),
    ("priority", .obj [("id", priorityId)]),
    ("description", description),
    ("reporter", .obj [("accountId", reporterAccountId)]),
    ("customfield_10034", username),
    ("customfield_10035", collection),
    ("customfield_10036", link)]

/-- The issue-creation call of the handler. -/
def issueCreateCall (cfg : Config) (fields : JSVal) : Call :=
  { endpoint := .issueCreate
    url := envText cfg.JIRA_BASE_URL ++ "/rest/api/3/issue"
    params := .undefined
    data := .obj [("fields", fields)]
    headers := headers cfg }

/-- The response of the validation failure. -/
def badRequest : Response := ⟨400, .str "All fields are required"⟩

/-- The response of the `catch` block of the create-ticket handler. -/
def createError : Response := ⟨500, .str "Error creating ticket"⟩

/-- The handler of `POST /create-ticket` on the parsed JSON object `body`: the
response and the outbound calls issued, in order. Past the validation `user` is
truthy, so reading `user.email` and `user.username` cannot throw. -/
def createTicket (toLowerCase : String → String) (cfg : Config) (be : Backend)
    (body : List (String × JSVal)) : Response × List Call :=
  let summary := getProp (.obj body) "summary"
  let priority := getProp (.obj body) "priority"
  let link := getProp (.obj body) "link"
  let collection := getProp (.obj body) "collection"
  let user := getProp (.obj body) "user"
  if !summary.truthy || !priority.truthy || !link.truthy || !collection.truthy
      || !user.truthy then
    (badRequest, [])
  else
    match getOrCreateUser cfg be [] (getProp user "email") (getProp user "username") with
    | (none, userCalls) => (createError, userCalls)
    | (some reporterAccountId, userCalls) =>
      match getPriorityIdByName toLowerCase cfg be userCalls priority with
      | (none, priorityCalls) => (createError, userCalls ++ priorityCalls)
      | (some priorityId, priorityCalls) =>
        match description summary priority link collection (getProp user "username") with
        | none => (createError, userCalls ++ priorityCalls)
        | some doc =>
          let call := issueCreateCall cfg (issueFields cfg summary link collection
            (getProp user "username") reporterAccountId priorityId doc)
          match be.createIssue (userCalls ++ priorityCalls) call with
          | none => (createError, userCalls ++ priorityCalls ++ [call])
          | some created =>
            (⟨200, .obj [("issueKey", .str created.key),
                ("issueUrl", .str (envText cfg.JIRA_BASE_URL ++ "/browse/" ++ created.key))]⟩,
              userCalls ++ priorityCalls ++ [call])

/-! ## The stages of `POST /create-ticket` -/

/-- The validation of the create-ticket handler holds: none of the five
operands of its test is falsy. -/
def passesValidation (body : List (String × JSVal)) : Bool :=
  (getProp (.obj body) "summary").truthy && (getProp (.obj body) "priority").truthy
    && (getProp (.obj body) "link").truthy && (getProp (.obj body) "collection").truthy
    && (getProp (.obj body) "user").truthy

/-- The identity resolution of a create-ticket request: the first stage of the
handler. -/
def userStage (cfg : Config) (be : Backend) (body : List (String × JSVal)) :
    Option JSVal × List Call :=
  getOrCreateUser cfg be [] (getProp (getProp (.obj body) "user") "email")
    (getProp (getProp (.obj body) "user") "username")

/-- The priority resolution of a create-ticket request: the second stage of
the handler, run after the calls of the first. -/
def priorityStage (toLowerCase : String → String) (cfg : Config) (be : Backend)
    (body : List (String × JSVal)) : Option JSVal × List Call :=
  getPriorityIdByName toLowerCase cfg be (userStage cfg be body).2 (getProp (.obj body) "priority")

/-- The description of a create-ticket request: `none` when a template literal
of the handler throws. -/
def descriptionStage (body : List (String × JSVal)) : Option JSVal :=
  description (getProp (.obj body) "summary") (getProp (.obj body) "priority")
    (getProp (.obj body) "link") (getProp (.obj body) "collection")
    (getProp (getProp (.obj body) "user") "username")

/-- The issue-creation call of a create-ticket request, given the two resolved
identifiers and the description: the third stage of the handler. -/
def issueStageCall (cfg : Config) (body : List (String × JSVal))
    (reporterAccountId priorityId doc : JSVal) : Call :=
  issueCreateCall cfg (issueFields cfg (getProp (.obj body) "summary")
    (getProp (.obj body) "link") (getProp (.obj body) "collection")
    (getProp (getProp (.obj body) "user") "username") reporterAccountId priorityId doc)

/-! ## `GET /tickets` -/

/-- The destructuring default `{k = d}`: `d` replaces exactly `undefined`. -/
def withDefault (v d : JSVal) : JSVal :=
  match v with
  | .undefined => d
  | w => w

/-- The issue-search call of the handler, for the text `reporter` that the
template of the query expression printed for `reportedBy`. -/
def issueSearchCall (cfg : Config) (reporter : String) (startAt maxResults : JSVal) : Call :=
  { endpoint := .issueSearch
    url := envText cfg.JIRA_BASE_URL ++ "/rest/api/3/search"
    params := .obj [("jql", .str ("reporter=\"" ++ reporter ++ "\"")),
      ("fields", .str "summary,status,priority,key,customfield_10044,customfield_10035"),
      ("startAt", startAt),
      ("maxResults", maxResults)]
    data := .undefined
    headers := headers cfg }

/-- The response of the `catch` block of the tickets handler. -/
def fetchError : Response := ⟨500, .str "Error fetching tickets"⟩

/-- The handler of `GET /tickets` on the parsed query string `query`: the
response and the outbound calls issued. The template of the query expression
is evaluated inside the `try`, before the search call. -/
def getTickets (cfg : Config) (be : Backend) (query : List (String × JSVal)) :
    Response × List Call :=
  let reportedBy := getProp (.obj query) "reportedBy"
  let startAt := withDefault (getProp (.obj query) "startAt") (.num "0")
  let maxResults := withDefault (getProp (.obj query) "maxResults") (.num "10")
  match toStr reportedBy with
  | none => (fetchError, [])
  | some reporter =>
    match be.searchIssues [] (issueSearchCall cfg reporter startAt maxResults) with
    | none => (fetchError, [issueSearchCall cfg reporter startAt maxResults])
    | some page =>
      (⟨200, .obj [("issues", page.issues), ("total", page.total),
          ("startAt", page.startAt), ("maxResults", page.maxResults)]⟩,
        [issueSearchCall cfg reporter startAt maxResults])

/-! ## Reading a trace -/

/-- The call sites of a list of calls, in order. -/
def endpoints (calls : List Call) : List Endpoint := calls.map Call.endpoint

/-- The number of calls of `calls` issued at the call site `e`. -/
def countCalls (e : Endpoint) (calls : List Call) : Nat :=
  (endpoints calls).count e

/-! ## Sample data -/

/-- A configuration with every value set. -/
def sampleConfig : Config :=
  { JIRA_BASE_URL := some "https://jira.example", JIRA_PROJECT_KEY := some "INT", auth := "dTp0" }

/-- A backend without accounts, with the single priority High (id 2), whose
calls all succeed. -/
def sampleBackend : Backend :=
  { searchUsers := fun _ _ => some []
    createUser := fun _ _ => some ⟨"acc-1"⟩
    listPriorities := fun _ _ => some [⟨"High", "2"⟩]
    createIssue := fun _ _ => some ⟨"INT-7"⟩
    searchIssues := fun _ _ => some ⟨.arr [], .num "0", .num "0", .num "10"⟩ }

/-- The request body of the scenario of the specification. -/
def sampleBody : List (String × JSVal) :=
  [("summary", .str "Sync fails"), ("priority", .str "High"), ("link", .str "https://x/1"),
    ("collection", .str "orders"),
    ("user", .obj [("email", .str "a@b.com"), ("username", .str "alice")])]

/-- The scenario body with a user object that carries no email. -/
def bodyWithoutEmail : List (String × JSVal) :=
  [("summary", .str "Sync fails"), ("priority", .str "High"), ("link", .str "https://x/1"),
    ("collection", .str "orders"), ("user", .obj [("username", .str "alice")])]

/-- The scenario body with the priority name `constructor`. -/
def bodyConstructor : List (String × JSVal) :=
  [("summary", .str "Sync fails"), ("priority", .str "constructor"),
    ("link", .str "https://x/1"), ("collection", .str "orders"),
    ("user", .obj [("email", .str "a@b.com"), ("username", .str "alice")])]

/-- The scenario body with a summary that has no string conversion. -/
def bodyOpaqueSummary : List (String × JSVal) :=
  [("summary", .obj [("toString", .num "1")]), ("priority", .str "High"),
    ("link", .str "https://x/1"), ("collection", .str "orders"),
    ("user", .obj [("email", .str "a@b.com"), ("username", .str "alice")])]

/-- The scenario body with an email that has no string conversion. -/
def bodyOpaqueEmail : List (String × JSVal) :=
  [("summary", .str "Sync fails"), ("priority", .str "High"), ("link", .str "https://x/1"),
    ("collection", .str "orders"),
    ("user", .obj [("email", .obj [("toString", .num "1")]), ("username", .str "alice")])]

/-- A backend like `sampleBackend` whose search answers with the offset 5 and
the page size 50. -/
def shiftedBackend : Backend :=
  { sampleBackend with
    searchIssues := fun _ _ =>
      some ⟨.arr [.obj [("key", .str "INT-7")]], .num "1", .num "5", .num "50"⟩ }

/-- A backend like `sampleBackend` that already holds two accounts. -/
def knownUserBackend : Backend :=
  { sampleBackend with searchUsers := fun _ _ => some [⟨"acc-9"⟩, ⟨"acc-10"⟩] }

/-- A backend like `sampleBackend` that rejects the issue creation. -/
def rejectingBackend : Backend :=
  { sampleBackend with createIssue := fun _ _ => none }

/-- A backend like `sampleBackend` that rejects the user search. -/
def searchRejectingBackend : Backend :=
  { sampleBackend with searchUsers := fun _ _ => none }

/-- The query string `reportedBy=alice`, as parsed. -/
def queryAlice : List (String × JSVal) := [("reportedBy", .str "alice")]

/-- The query string `reportedBy=alice&startAt=20&maxResults=5`, as parsed:
the values of a query string are strings. -/
def queryAlicePaged : List (String × JSVal) :=
  [("reportedBy", .str "alice"), ("startAt", .str "20"), ("maxResults", .str "5")]

/-- The query string `reportedBy[toString]=1`, as parsed: a reporter without a
string conversion. -/
def queryOpaque : List (String × JSVal) :=
  [("reportedBy", .obj [("toString", .str "1")])]

/-! ## Basic facts -/

/-- A string has itself as string conversion. -/
theorem toStr_str (s : String) : toStr (.str s) = some s := by
  simp [toStr]

/-- A request that fails the validation gets the 400 response and no call. -/
theorem createTicket_of_not_valid (toLowerCase : String → String) (cfg : Config) (be : Backend)
    (body : List (String × JSVal)) (h : passesValidation body = false) :
    createTicket toLowerCase cfg be body = (badRequest, []) := by
  simp only [passesValidation, Bool.and_eq_false_iff] at h
  simp only [createTicket]
  rw [if_pos]
  simp only [Bool.or_eq_true, Bool.not_eq_true']
  tauto

/-- The handler on a validated request, stage by stage: the `try` block. -/
theorem createTicket_stages (toLowerCase : String → String) (cfg : Config) (be : Backend)
    (body : List (String × JSVal)) (h : passesValidation body = true) :
    createTicket toLowerCase cfg be body =
      match (userStage cfg be body).1 with
      | none => (createError, (userStage cfg be body).2)
      | some reporterAccountId =>
        match (priorityStage toLowerCase cfg be body).1 with
        | none =>
          (createError, (userStage cfg be body).2 ++ (priorityStage toLowerCase cfg be body).2)
        | some priorityId =>
          match descriptionStage body with
          | none =>
            (createError, (userStage cfg be body).2 ++ (priorityStage toLowerCase cfg be body).2)
          | some doc =>
            match be.createIssue
                ((userStage cfg be body).2 ++ (priorityStage toLowerCase cfg be body).2)
                (issueStageCall cfg body reporterAccountId priorityId doc) with
            | none =>
              (createError,
                (userStage cfg be body).2 ++ (priorityStage toLowerCase cfg be body).2
                  ++ [issueStageCall cfg body reporterAccountId priorityId doc])
            | some created =>
              (⟨200, .obj [("issueKey", .str created.key),
                  ("issueUrl", .str (envText cfg.JIRA_BASE_URL ++ "/browse/" ++ created.key))]⟩,
                (userStage cfg be body).2 ++ (priorityStage toLowerCase cfg be body).2
                  ++ [issueStageCall cfg body reporterAccountId priorityId doc]) := by
  simp only [passesValidation, Bool.and_eq_true] at h
  obtain ⟨⟨⟨⟨h1, h2⟩, h3⟩, h4⟩, h5⟩ := h
  simp only [createTicket]
  rw [if_neg (by simp [h1, h2, h3, h4, h5])]
  simp only [priorityStage, userStage, issueStageCall, descriptionStage]
  generalize getOrCreateUser cfg be [] (getProp (getProp (.obj body) "user") "email")
    (getProp (getProp (.obj body) "user") "username") = r
  obtain ⟨res, calls⟩ := r
  cases res with
  | none => rfl
  | some acc =>
    simp only
    generalize getPriorityIdByName toLowerCase cfg be calls (getProp (.obj body) "priority") = q
    obtain ⟨pres, pcalls⟩ := q
    cases pres with
    | none => rfl
    | some pid => rfl

/-- The calls of `getOrCreateUser`: none when the email has no string
conversion (and then the function throws), else the search alone or the search
and the creation. -/
theorem getOrCreateUser_calls_cases (cfg : Config) (be : Backend) (hist : List Call)
    (email username : JSVal) :
    (toStr email = none ∧ getOrCreateUser cfg be hist email username = (none, []))
      ∨ ∃ query, toStr email = some query
          ∧ ((getOrCreateUser cfg be hist email username).2 = [userSearchCall cfg query]
            ∨ (getOrCreateUser cfg be hist email username).2
                = [userSearchCall cfg query, userCreateCall cfg email]) := by
  unfold getOrCreateUser
  cases hq : toStr email with
  | none => exact Or.inl ⟨rfl, rfl⟩
  | some query =>
    refine Or.inr ⟨query, rfl, ?_⟩
    simp only
    split
    · exact Or.inl rfl
    · split <;> exact Or.inr rfl
    · exact Or.inl rfl

/-- The call sites of `getOrCreateUser`. -/
theorem getOrCreateUser_endpoints (cfg : Config) (be : Backend) (hist : List Call)
    (email username : JSVal) :
    ((getOrCreateUser cfg be hist email username).1 = none
        ∧ endpoints (getOrCreateUser cfg be hist email username).2 = [])
      ∨ endpoints (getOrCreateUser cfg be hist email username).2 = [.userSearch]
      ∨ endpoints (getOrCreateUser cfg be hist email username).2 = [.userSearch, .userCreate] := by
  rcases getOrCreateUser_calls_cases cfg be hist email username with ⟨_, h⟩ | ⟨q, _, h | h⟩
  · rw [h]
    exact Or.inl ⟨rfl, rfl⟩
  · rw [h]
    exact Or.inr (Or.inl rfl)
  · rw [h]
    exact Or.inr (Or.inr rfl)

/-- The only call of `getPriorityIdByName` is the enumeration. -/
theorem getPriorityIdByName_calls (toLowerCase : String → String) (cfg : Config) (be : Backend)
    (hist : List Call) (priorityName : JSVal) :
    (getPriorityIdByName toLowerCase cfg be hist priorityName).2 = [priorityListCall cfg] := by
  unfold getPriorityIdByName
  split
  · rfl
  · split
    · split <;> rfl
    · rfl

/-- The call sites of a create-ticket request come in the order user search,
account creation, priority enumeration, issue creation, each at most once. -/
theorem createTicket_endpoints (toLowerCase : String → String) (cfg : Config) (be : Backend)
    (body : List (String × JSVal)) :
    endpoints (createTicket toLowerCase cfg be body).2
        <+: [.userSearch, .userCreate, .priorityList, .issueCreate]
      ∨ endpoints (createTicket toLowerCase cfg be body).2
        <+: [.userSearch, .priorityList, .issueCreate] := by
  cases hv : passesValidation body with
  | false =>
    rw [createTicket_of_not_valid toLowerCase cfg be body hv]
    exact Or.inl (List.nil_prefix)
  | true =>
    rw [createTicket_stages toLowerCase cfg be body hv]
    have hp : (priorityStage toLowerCase cfg be body).2 = [priorityListCall cfg] :=
      getPriorityIdByName_calls toLowerCase cfg be _ _
    have hu := getOrCreateUser_endpoints cfg be [] (getProp (getProp (.obj body) "user") "email")
      (getProp (getProp (.obj body) "user") "username")
    change (((userStage cfg be body).1 = none ∧ endpoints (userStage cfg be body).2 = [])
      ∨ endpoints (userStage cfg be body).2 = [.userSearch]
      ∨ endpoints (userStage cfg be body).2 = [.userSearch, .userCreate]) at hu
    rw [hp]
    have hpl : endpoints [priorityListCall cfg] = [.priorityList] := rfl
    cases hur : (userStage cfg be body).1 with
    | none =>
      simp only
      rcases hu with ⟨_, hu⟩ | hu | hu <;> rw [hu] <;> decide
    | some acc =>
      simp only
      have hu2 : endpoints (userStage cfg be body).2 = [.userSearch]
          ∨ endpoints (userStage cfg be body).2 = [.userSearch, .userCreate] := by
        rcases hu with ⟨hn, _⟩ | hu | hu
        · rw [hur] at hn
          exact absurd hn (by simp)
        · exact Or.inl hu
        · exact Or.inr hu
      cases (priorityStage toLowerCase cfg be body).1 with
      | none =>
        simp only [endpoints, List.map_append] at hu2 hpl ⊢
        rcases hu2 with hu2 | hu2 <;> rw [hu2, hpl] <;> decide
      | some pid =>
        simp only
        cases descriptionStage body with
        | none =>
          simp only [endpoints, List.map_append] at hu2 hpl ⊢
          rcases hu2 with hu2 | hu2 <;> rw [hu2, hpl] <;> decide
        | some doc =>
          simp only
          have hi : endpoints [issueStageCall cfg body acc pid doc] = [.issueCreate] := rfl
          split <;> simp only [endpoints, List.map_append] at hu2 hpl hi ⊢ <;>
            rcases hu2 with hu2 | hu2 <;> rw [hu2, hpl, hi] <;> decide

/-- Where an account creation stands in a list of call sites of the shape of
`createTicket_endpoints`: right after the user search, before the rest. -/
theorem userCreate_position (xs ys : List Endpoint)
    (h : xs ++ Endpoint.userCreate :: ys
          <+: [.userSearch, .userCreate, .priorityList, .issueCreate]
        ∨ xs ++ Endpoint.userCreate :: ys <+: [.userSearch, .priorityList, .issueCreate]) :
    xs = [.userSearch] ∧ ys <+: [.priorityList, .issueCreate] := by
  rcases xs with _ | ⟨a, _ | ⟨b, _ | ⟨c, _ | ⟨d, xs⟩⟩⟩⟩ <;>
    simp [List.cons_prefix_cons, List.prefix_nil] at h ⊢
  exact h

/-- No account creation among the call sites that follow the user stage. -/
theorem count_userCreate_of_prefix (ys : List Endpoint)
    (h : ys <+: [.priorityList, .issueCreate]) : ys.count .userCreate = 0 := by
  rcases ys with _ | ⟨a, _ | ⟨b, _ | ⟨c, ys⟩⟩⟩ <;>
    simp [List.cons_prefix_cons, List.prefix_nil] at h ⊢
  · simp [h]
  · simp [h]

/-- No call of the user stage is an issue creation. -/
theorem userStage_no_issueCreate (cfg : Config) (be : Backend) (body : List (String × JSVal))
    (c : Call) (hc : c ∈ (userStage cfg be body).2) : c.endpoint ≠ .issueCreate := by
  have hmem : c.endpoint ∈ endpoints (userStage cfg be body).2 := List.mem_map_of_mem _ hc
  rcases getOrCreateUser_endpoints cfg be [] (getProp (getProp (.obj body) "user") "email")
      (getProp (getProp (.obj body) "user") "username") with ⟨_, hu⟩ | hu | hu <;>
    (unfold userStage at hmem; rw [hu] at hmem; intro he; rw [he] at hmem; simp at hmem)

/-- Looking up, in the map built by the `reduce`, a key that is the lower-cased
name of no listed priority finds what the accumulator held. -/
theorem foldl_setProp_lookup_of_not_mem (toLowerCase : String → String) (ps : List Priority)
    (acc : List (String × JSVal)) (k : String) (h : ∀ p ∈ ps, toLowerCase p.name ≠ k) :
    (ps.foldl (fun map priority => setProp map (toLowerCase priority.name) (.str priority.id))
      acc).lookup k = acc.lookup k := by
  induction ps generalizing acc with
  | nil => rfl
  | cons p rest ih =>
    rw [List.foldl_cons, ih _ (fun q hq => h q (List.mem_cons_of_mem _ hq))]
    have hp : toLowerCase p.name ≠ k := h p (List.mem_cons_self _ _)
    unfold setProp
    split
    · rfl
    · rw [List.lookup_cons]
      have : (k == toLowerCase p.name) = false := by
        simpa using fun h' => hp h'.symm
      rw [this]

/-- A value found in the map built by the `reduce` was in the accumulator or is
the identifier of a listed priority with that lower-cased name. -/
theorem foldl_setProp_lookup_some (toLowerCase : String → String) (ps : List Priority)
    (acc : List (String × JSVal)) (k : String) (v : JSVal)
    (h : (ps.foldl (fun map priority => setProp map (toLowerCase priority.name)
      (.str priority.id)) acc).lookup k = some v) :
    acc.lookup k = some v ∨ ∃ p ∈ ps, toLowerCase p.name = k ∧ v = .str p.id := by
  induction ps generalizing acc with
  | nil => exact Or.inl h
  | cons p rest ih =>
    rw [List.foldl_cons] at h
    rcases ih _ h with h1 | ⟨q, hq, hk, hv⟩
    · unfold setProp at h1
      split at h1
      · exact Or.inl h1
      · rw [List.lookup_cons] at h1
        cases hkp : (k == toLowerCase p.name) with
        | true =>
          rw [hkp] at h1
          simp only [Option.some.injEq] at h1
          refine Or.inr ⟨p, List.mem_cons_self _ _, ?_, h1.symm⟩
          simpa using (beq_iff_eq.mp hkp).symm
        | false =>
          rw [hkp] at h1
          exact Or.inl h1
    · exact Or.inr ⟨q, List.mem_cons_of_mem _ hq, hk, hv⟩

/-- A priority name that, lower-cased, names no listed priority and no
property of `Object.prototype` is rejected by `getPriorityIdByName`. -/
theorem getPriorityIdByName_unrecognized (toLowerCase : String → String) (cfg : Config)
    (be : Backend) (hist : List Call) (ps : List Priority) (name : String)
    (hps : be.listPriorities hist (priorityListCall cfg) = some ps)
    (hno : ∀ p ∈ ps, toLowerCase p.name ≠ toLowerCase name)
    (hproto : objectPrototype (toLowerCase name) = .undefined) :
    getPriorityIdByName toLowerCase cfg be hist (.str name) = (none, [priorityListCall cfg]) := by
  have hl : (priorityMap toLowerCase ps).lookup (toLowerCase name) = none := by
    unfold priorityMap
    rw [foldl_setProp_lookup_of_not_mem toLowerCase ps [] _ hno]
    rfl
  simp [getPriorityIdByName, hps, getProp, hl, hproto, truthy]

/-- The value `getPriorityIdByName` returns for a name that, lower-cased, names
no property of `Object.prototype` is the identifier of a listed priority with
the same lower-cased name. -/
theorem getPriorityIdByName_resolved (toLowerCase : String → String) (cfg : Config)
    (be : Backend) (hist : List Call) (priorityName id : JSVal) (calls : List Call)
    (h : getPriorityIdByName toLowerCase cfg be hist priorityName = (some id, calls)) :
    ∃ name ps, priorityName = .str name
      ∧ be.listPriorities hist (priorityListCall cfg) = some ps
      ∧ id = getProp (.obj (priorityMap toLowerCase ps)) (toLowerCase name)
      ∧ (objectPrototype (toLowerCase name) = .undefined →
          ∃ p ∈ ps, toLowerCase p.name = toLowerCase name ∧ id = .str p.id) := by
  unfold getPriorityIdByName at h
  split at h
  · simp at h
  · rename_i ps hps
    split at h
    · rename_i name
      split at h
      · simp at h
      · simp only [Prod.mk.injEq, Option.some.injEq] at h
        refine ⟨name, ps, rfl, hps, h.1.symm, ?_⟩
        intro hproto
        rename_i htruthy
        rw [← h.1]
        simp only [getProp] at htruthy ⊢
        cases hl : (priorityMap toLowerCase ps).lookup (toLowerCase name) with
        | none =>
          rw [hl] at htruthy
          simp [hproto, truthy] at htruthy
        | some v =>
          simp only
          rcases foldl_setProp_lookup_some toLowerCase ps [] _ v hl with h0 | ⟨p, hp, hk, hv⟩
          · simp [List.lookup] at h0
          · exact ⟨p, hp, hk, hv⟩
    · simp at h

/-- A rejected priority enumeration makes `getPriorityIdByName` throw. -/
theorem getPriorityIdByName_of_rejected (toLowerCase : String → String) (cfg : Config)
    (be : Backend) (hist : List Call) (priorityName : JSVal)
    (h : be.listPriorities hist (priorityListCall cfg) = none) :
    getPriorityIdByName toLowerCase cfg be hist priorityName = (none, [priorityListCall cfg]) := by
  simp [getPriorityIdByName, h]

/-- A validated request whose priority name, lower-cased, names no priority of
the backend and no property of `Object.prototype` is answered with the 500
response, and no issue-creation call is issued. -/
theorem createTicket_unrecognized_priority (toLowerCase : String → String) (cfg : Config)
    (be : Backend) (body : List (String × JSVal)) (name : String)
    (hvalid : passesValidation body = true)
    (hname : getProp (.obj body) "priority" = .str name)
    (hno : ∀ ps, be.listPriorities (userStage cfg be body).2 (priorityListCall cfg) = some ps →
      ∀ p ∈ ps, toLowerCase p.name ≠ toLowerCase name)
    (hproto : objectPrototype (toLowerCase name) = .undefined) :
    (priorityStage toLowerCase cfg be body).1 = none
      ∧ (createTicket toLowerCase cfg be body).1 = ⟨500, .str "Error creating ticket"⟩
      ∧ countCalls .issueCreate (createTicket toLowerCase cfg be body).2 = 0 := by
  have hprio : (priorityStage toLowerCase cfg be body).1 = none := by
    unfold priorityStage
    rw [hname]
    cases hps : be.listPriorities (userStage cfg be body).2 (priorityListCall cfg) with
    | none => rw [getPriorityIdByName_of_rejected toLowerCase cfg be _ _ hps]
    | some ps =>
      rw [getPriorityIdByName_unrecognized toLowerCase cfg be _ ps name hps (hno ps hps) hproto]
  have hp : (priorityStage toLowerCase cfg be body).2 = [priorityListCall cfg] :=
    getPriorityIdByName_calls toLowerCase cfg be _ _
  have hu : countCalls .issueCreate (userStage cfg be body).2 = 0 := by
    unfold countCalls
    rw [List.count_eq_zero]
    intro hmem
    obtain ⟨c, hc, he⟩ := List.mem_map.mp hmem
    exact userStage_no_issueCreate cfg be body c hc he
  refine ⟨hprio, ?_, ?_⟩
  · rw [createTicket_stages toLowerCase cfg be body hvalid, hprio]
    cases (userStage cfg be body).1 <;> rfl
  · rw [createTicket_stages toLowerCase cfg be body hvalid, hprio]
    cases (userStage cfg be body).1 with
    | none => exact hu
    | some acc =>
      simp only [hp]
      simp only [countCalls, endpoints, List.map_append, List.count_append] at hu ⊢
      rw [hu]
      simp [priorityListCall]

/-! ## Request validation -/

/-- C1: a create-ticket request whose body lacks one of summary, priority,
link, collection, user is answered with status 400 and the text
'All fields are required', and no outbound call is issued. -/
theorem createTicket_missing_field (toLowerCase : String → String) (cfg : Config) (be : Backend)
    (body : List (String × JSVal))
    (h : ∃ k ∈ ["summary", "priority", "link", "collection", "user"], body.lookup k = none) :
    createTicket toLowerCase cfg be body = (⟨400, .str "All fields are required"⟩, []) := by
  simp only [List.mem_cons, List.mem_singleton, List.not_mem_nil, or_false, exists_eq_or_imp,
    exists_eq_left] at h
  rcases h with h | h | h | h | h <;>
    simp [createTicket, getProp, h, objectPrototype, truthy, badRequest]

/-- The scenario body without its user is rejected with 400 and no call. -/
theorem createTicket_missing_field_witness :
    (∃ k ∈ ["summary", "priority", "link", "collection", "user"],
        [("summary", JSVal.str "Sync fails"), ("priority", JSVal.str "High"),
          ("link", JSVal.str "https://x/1"), ("collection", JSVal.str "orders")].lookup k = none)
      ∧ createTicket asciiLowerCase sampleConfig sampleBackend
          [("summary", .str "Sync fails"), ("priority", .str "High"),
            ("link", .str "https://x/1"), ("collection", .str "orders")]
        = (⟨400, .str "All fields are required"⟩, []) :=
  ⟨⟨"user", by decide, rfl⟩,
    createTicket_missing_field _ _ _ _ ⟨"user", by decide, rfl⟩⟩

/-- C2, as stated, fails: the body of the scenario with a user object that has
a username and no email is answered with status 200, after four outbound calls
the first of which searches for the text `undefined`. -/
theorem bodyWithoutEmail_not_rejected :
    getProp (.obj bodyWithoutEmail) "user" = .obj [("username", .str "alice")]
      ∧ ¬ ((createTicket asciiLowerCase sampleConfig sampleBackend bodyWithoutEmail).1.status = 400
          ∧ (createTicket asciiLowerCase sampleConfig sampleBackend bodyWithoutEmail).2 = [])
      ∧ (createTicket asciiLowerCase sampleConfig sampleBackend bodyWithoutEmail).1.status = 200
      ∧ endpoints (createTicket asciiLowerCase sampleConfig sampleBackend bodyWithoutEmail).2
          = [.userSearch, .userCreate, .priorityList, .issueCreate]
      ∧ (createTicket asciiLowerCase sampleConfig sampleBackend bodyWithoutEmail).2.map Call.url
          = ["https://jira.example/rest/api/3/user/search?query=undefined",
             "https://jira.example/rest/api/3/user",
             "https://jira.example/rest/api/3/priority",
             "https://jira.example/rest/api/3/issue"] := by
  refine ⟨rfl, ?_, by decide, by decide, by decide⟩
  intro h
  exact absurd h.1 (by decide)

/-- C2, amended: a create-ticket request whose five top-level fields are
truthy passes validation whatever its user object holds, also when that object
lacks an email or a username: the response is never the 400 of a validation
failure. When the email is absent the first outbound call is the user search
with the query text `undefined`; when the email is present and has a string
conversion, whether or not there is a username, the first outbound call is the
user search with that text. -/
theorem createTicket_user_without_email (toLowerCase : String → String) (cfg : Config)
    (be : Backend) (body u : List (String × JSVal)) (hvalid : passesValidation body = true)
    (huser : getProp (.obj body) "user" = .obj u) :
    (createTicket toLowerCase cfg be body).1.status ≠ 400
      ∧ (u.lookup "email" = none →
          (createTicket toLowerCase cfg be body).2.head? = some (userSearchCall cfg "undefined")
            ∧ (createTicket toLowerCase cfg be body).2.head?.map Call.url
              = some (envText cfg.JIRA_BASE_URL ++ "/rest/api/3/user/search?query=undefined"))
      ∧ (∀ query, toStr (getProp (.obj u) "email") = some query →
          (createTicket toLowerCase cfg be body).2.head? = some (userSearchCall cfg query)) := by
  have hhead : ∀ query, toStr (getProp (.obj u) "email") = some query →
      (createTicket toLowerCase cfg be body).2.head? = some (userSearchCall cfg query) := by
    intro query hq
    have hp : (priorityStage toLowerCase cfg be body).2 = [priorityListCall cfg] :=
      getPriorityIdByName_calls toLowerCase cfg be _ _
    have hu : (userStage cfg be body).2.head? = some (userSearchCall cfg query) := by
      unfold userStage
      rw [huser]
      rcases getOrCreateUser_calls_cases cfg be [] (getProp (.obj u) "email")
        (getProp (.obj u) "username") with ⟨hn, _⟩ | ⟨q, hq', h | h⟩
      · rw [hq] at hn
        exact absurd hn (by simp)
      · rw [hq] at hq'
        cases hq'
        rw [h]
        rfl
      · rw [hq] at hq'
        cases hq'
        rw [h]
        rfl
    rw [createTicket_stages toLowerCase cfg be body hvalid]
    cases (userStage cfg be body).1 with
    | none => exact hu
    | some acc =>
      simp only
      cases (priorityStage toLowerCase cfg be body).1 with
      | none => simp [List.head?_append, hu]
      | some pid =>
        simp only
        cases descriptionStage body with
        | none => simp [List.head?_append, hu]
        | some doc =>
          simp only
          split <;> simp [List.head?_append, hu]
  refine ⟨?_, ?_, hhead⟩
  · rw [createTicket_stages toLowerCase cfg be body hvalid]
    cases (userStage cfg be body).1 with
    | none => simp [createError]
    | some acc =>
      simp only
      cases (priorityStage toLowerCase cfg be body).1 with
      | none => simp [createError]
      | some pid =>
        simp only
        cases descriptionStage body with
        | none => simp [createError]
        | some doc =>
          simp only
          split <;> simp [createError]
  · intro he
    have hq : toStr (getProp (.obj u) "email") = some "undefined" := by
      simp only [getProp, he]
      rfl
    rw [hhead _ hq]
    refine ⟨rfl, ?_⟩
    simp only [userSearchCall, Option.map_some']
    rw [String.append_assoc]
    rfl

/-- The scenario body whose user has no email passes validation and starts
with the user search for the text `undefined`. -/
theorem createTicket_user_without_email_witness :
    passesValidation bodyWithoutEmail = true
      ∧ (createTicket asciiLowerCase sampleConfig sampleBackend bodyWithoutEmail).1.status ≠ 400
      ∧ (createTicket asciiLowerCase sampleConfig sampleBackend bodyWithoutEmail).2.head?
          = some (userSearchCall sampleConfig "undefined") :=
  ⟨by decide,
    (createTicket_user_without_email asciiLowerCase sampleConfig sampleBackend bodyWithoutEmail
      [("username", .str "alice")] (by decide) rfl).1,
    ((createTicket_user_without_email asciiLowerCase sampleConfig sampleBackend bodyWithoutEmail
      [("username", .str "alice")] (by decide) rfl).2.1 rfl).1⟩

/-! ## Priority resolution -/

/-- C3: two priority names equal after lower-casing get the same outcome from
`getPriorityIdByName`, for every backend and every earlier history of calls:
the same identifier or the same failure, after the same calls. The lower-casing
is any function, that of the JavaScript runtime included. -/
theorem getPriorityIdByName_case_insensitive (toLowerCase : String → String) (cfg : Config)
    (be : Backend) (hist : List Call) (a b : String) (h : toLowerCase a = toLowerCase b) :
    getPriorityIdByName toLowerCase cfg be hist (.str a)
      = getPriorityIdByName toLowerCase cfg be hist (.str b) := by
  simp only [getPriorityIdByName]
  rw [h]

/-- The names High and HIGH both resolve to the identifier 2. -/
theorem getPriorityIdByName_case_insensitive_witness :
    asciiLowerCase "High" = asciiLowerCase "HIGH"
      ∧ getPriorityIdByName asciiLowerCase sampleConfig sampleBackend [] (.str "High")
          = getPriorityIdByName asciiLowerCase sampleConfig sampleBackend [] (.str "HIGH")
      ∧ (getPriorityIdByName asciiLowerCase sampleConfig sampleBackend [] (.str "High")).1
          = some (.str "2") :=
  ⟨by decide,
    getPriorityIdByName_case_insensitive asciiLowerCase sampleConfig sampleBackend [] "High"
      "HIGH" (by decide),
    rfl⟩

/-- C4: the code departs from the claim at the priority name `constructor`.
Against a backend whose only priority is High, no priority name equals
`constructor` case-insensitively, yet `getPriorityIdByName` returns the
function inherited under that key from `Object.prototype`, and the handler
issues the issue-creation call: it answers 200 when the backend accepts the
call, and 500 only after the call when the backend rejects it. The name
`toString`, which lower-cases to a key that is not inherited, is rejected. -/
theorem createTicket_constructor_priority :
    passesValidation bodyConstructor = true
      ∧ getProp (.obj bodyConstructor) "priority" = .str "constructor"
      ∧ sampleBackend.listPriorities [] (priorityListCall sampleConfig) = some [⟨"High", "2"⟩]
      ∧ (∀ p ∈ [Priority.mk "High" "2"],
          asciiLowerCase p.name ≠ asciiLowerCase "constructor")
      ∧ (getPriorityIdByName asciiLowerCase sampleConfig sampleBackend []
          (.str "constructor")).1 = some (.func "Object")
      ∧ (createTicket asciiLowerCase sampleConfig sampleBackend bodyConstructor).1.status = 200
      ∧ countCalls .issueCreate
          (createTicket asciiLowerCase sampleConfig sampleBackend bodyConstructor).2 = 1
      ∧ (createTicket asciiLowerCase sampleConfig rejectingBackend bodyConstructor).1.status = 500
      ∧ countCalls .issueCreate
          (createTicket asciiLowerCase sampleConfig rejectingBackend bodyConstructor).2 = 1
      ∧ (getPriorityIdByName asciiLowerCase sampleConfig sampleBackend []
          (.str "toString")).1 = none := by
  refine ⟨by decide, rfl, rfl, by decide, rfl, by decide, by decide, by decide, by decide, rfl⟩

/-! ## Identity resolution -/

/-- C5: for an email with a string conversion, every string among them,
`getOrCreateUser` issues exactly one user-search call, its first call, for that
text. When the search is rejected the function throws after it. When the
search finds no account it issues exactly one account-creation call and
returns the identifier of the account created (it throws when the creation is
rejected); when the search finds accounts it issues no account-creation call
and returns the identifier of the first. In the calls of a create-ticket
request no issue-creation call comes before an account-creation call. -/
theorem getOrCreateUser_search_then_create (cfg : Config) (be : Backend) (hist : List Call)
    (email username : JSVal) (query : String) (hq : toStr email = some query) :
    countCalls .userSearch (getOrCreateUser cfg be hist email username).2 = 1
      ∧ (getOrCreateUser cfg be hist email username).2.head? = some (userSearchCall cfg query)
      ∧ (be.searchUsers hist (userSearchCall cfg query) = none →
          getOrCreateUser cfg be hist email username = (none, [userSearchCall cfg query]))
      ∧ (be.searchUsers hist (userSearchCall cfg query) = some [] →
          (getOrCreateUser cfg be hist email username).2
              = [userSearchCall cfg query, userCreateCall cfg email]
            ∧ countCalls .userCreate (getOrCreateUser cfg be hist email username).2 = 1
            ∧ (getOrCreateUser cfg be hist email username).1
              = (be.createUser (hist ++ [userSearchCall cfg query])
                  (userCreateCall cfg email)).map (fun created => .str created.accountId))
      ∧ (∀ first rest, be.searchUsers hist (userSearchCall cfg query) = some (first :: rest) →
          countCalls .userCreate (getOrCreateUser cfg be hist email username).2 = 0
            ∧ getOrCreateUser cfg be hist email username
              = (some (.str first.accountId), [userSearchCall cfg query]))
      ∧ (∀ (toLowerCase : String → String) (body : List (String × JSVal))
          (before after : List Call) (c : Call),
          (createTicket toLowerCase cfg be body).2 = before ++ c :: after →
            c.endpoint = .userCreate →
            countCalls .issueCreate before = 0 ∧ countCalls .userCreate before = 0
              ∧ countCalls .userCreate after = 0) := by
  have hcases : (getOrCreateUser cfg be hist email username).2 = [userSearchCall cfg query]
      ∨ (getOrCreateUser cfg be hist email username).2
          = [userSearchCall cfg query, userCreateCall cfg email] := by
    rcases getOrCreateUser_calls_cases cfg be hist email username with ⟨hn, _⟩ | ⟨q, hq', h⟩
    · rw [hq] at hn
      exact absurd hn (by simp)
    · rw [hq] at hq'
      cases hq'
      exact h
  refine ⟨?_, ?_, ?_, ?_, ?_, ?_⟩
  · rcases hcases with h | h <;>
      rw [h] <;> simp [countCalls, endpoints, userSearchCall, userCreateCall]
  · rcases hcases with h | h <;> rw [h] <;> rfl
  · intro h
    unfold getOrCreateUser
    rw [hq]
    simp only
    rw [h]
  · intro h
    unfold getOrCreateUser
    rw [hq]
    simp only
    rw [h]
    simp only
    cases be.createUser (hist ++ [userSearchCall cfg query]) (userCreateCall cfg email) <;>
      exact ⟨rfl, by simp [countCalls, endpoints, userSearchCall, userCreateCall], rfl⟩
  · intro first rest h
    unfold getOrCreateUser
    rw [hq]
    simp only
    rw [h]
    exact ⟨by simp [countCalls, endpoints, userSearchCall], rfl⟩
  · intro toLowerCase body before after c hsplit hc
    have hshape := createTicket_endpoints toLowerCase cfg be body
    rw [hsplit] at hshape
    simp only [endpoints, List.map_append, List.map_cons, hc] at hshape
    obtain ⟨hx, hy⟩ := userCreate_position _ _ hshape
    refine ⟨?_, ?_, ?_⟩
    · simp [countCalls, endpoints, hx]
    · simp [countCalls, endpoints, hx]
    · exact count_userCreate_of_prefix _ hy

/-- An unknown email leads to a search and a creation, a known one to a search
alone and the first account found, a rejected search to a throw. -/
theorem getOrCreateUser_search_then_create_witness :
    toStr (.str "a@b.com") = some "a@b.com"
      ∧ getOrCreateUser sampleConfig sampleBackend [] (.str "a@b.com") (.str "alice")
        = (some (.str "acc-1"),
            [userSearchCall sampleConfig "a@b.com",
              userCreateCall sampleConfig (.str "a@b.com")])
      ∧ getOrCreateUser sampleConfig knownUserBackend [] (.str "a@b.com") (.str "alice")
        = (some (.str "acc-9"), [userSearchCall sampleConfig "a@b.com"])
      ∧ getOrCreateUser sampleConfig searchRejectingBackend [] (.str "a@b.com") (.str "alice")
        = (none, [userSearchCall sampleConfig "a@b.com"]) :=
  ⟨rfl,
    Prod.ext
      ((getOrCreateUser_search_then_create sampleConfig sampleBackend [] (.str "a@b.com")
        (.str "alice") "a@b.com" rfl).2.2.2.1 rfl).2.2
      ((getOrCreateUser_search_then_create sampleConfig sampleBackend [] (.str "a@b.com")
        (.str "alice") "a@b.com" rfl).2.2.2.1 rfl).1,
    ((getOrCreateUser_search_then_create sampleConfig knownUserBackend [] (.str "a@b.com")
      (.str "alice") "a@b.com" rfl).2.2.2.2.1 ⟨"acc-9"⟩ [⟨"acc-10"⟩] rfl).2,
    (getOrCreateUser_search_then_create sampleConfig searchRejectingBackend [] (.str "a@b.com")
      (.str "alice") "a@b.com" rfl).2.2.1 rfl⟩

/-! ## The issue-creation call and the response -/

/-- The description that the handler builds is the document with one paragraph
of the five labelled lines Summary, Priority, Link, Collection, Reported by, in
that order, separated by hard breaks; it exists exactly when the five values
have a string conversion. -/
theorem description_eq_some (summary priority link collection username doc : JSVal)
    (h : description summary priority link collection username = some doc) :
    ∃ s p l c u, toStr summary = some s ∧ toStr priority = some p ∧ toStr link = some l
      ∧ toStr collection = some c ∧ toStr username = some u
      ∧ doc = .obj [("type", .str "doc"), ("version", .num "1"),
          ("content", .arr [
            .obj [("type", .str "paragraph"),
              ("content", .arr [
                .obj [("type", .str "text"), ("text", .str ("Summary: " ++ s))],
                .obj [("type", .str "hardBreak")],
                .obj [("type", .str "text"), ("text", .str ("Priority: " ++ p))],
                .obj [("type", .str "hardBreak")],
                .obj [("type", .str "text"), ("text", .str ("Link: " ++ l))],
                .obj [("type", .str "hardBreak")],
                .obj [("type", .str "text"), ("text", .str ("Collection: " ++ c))],
                .obj [("type", .str "hardBreak")],
                .obj [("type", .str "text"), ("text", .str ("Reported by: " ++ u))]])]])] := by
  unfold description at h
  split at h
  · rename_i s p l c u hs hp hl hc hu
    simp only [Option.some.injEq] at h
    exact ⟨s, p, l, c, u, hs, hp, hl, hc, hu, h.symm⟩
  · simp at h

/-- The payload of the issue-creation call, field by field. -/
theorem issueStageCall_data (cfg : Config) (body : List (String × JSVal))
    (reporterAccountId priorityId doc : JSVal) :
    (issueStageCall cfg body reporterAccountId priorityId doc).endpoint = .issueCreate
      ∧ (issueStageCall cfg body reporterAccountId priorityId doc).url
        = envText cfg.JIRA_BASE_URL ++ "/rest/api/3/issue"
      ∧ (issueStageCall cfg body reporterAccountId priorityId doc).data
        = .obj [("fields", .obj [
            ("project", .obj [("key", envValue cfg.JIRA_PROJECT_KEY)]),
            ("summary", getProp (.obj body) "summary"),
            ("issuetype", .obj [("name", .str "Integration")]),
            ("priority", .obj [("id", priorityId)]),
            ("description", doc),
            ("reporter", .obj [("accountId", reporterAccountId)]),
            ("customfield_10034", getProp (getProp (.obj body) "user") "username"),
            ("customfield_10035", getProp (.obj body) "collection"),
            ("customfield_10036", getProp (.obj body) "link")])] :=
  ⟨rfl, rfl, rfl⟩

/-- The issue-creation call of a request is built from the request fields and
the two identifiers resolved before it: whenever a create-ticket request
issues a call at the issue-creation site, both resolutions succeeded, the
description was built, and the call is `issueStageCall` of their results. When
the lower-cased priority name is no property of `Object.prototype`, the
priority identifier sent is the identifier of a backend priority with that
lower-cased name. -/
theorem createTicket_issue_payload (toLowerCase : String → String) (cfg : Config) (be : Backend)
    (body : List (String × JSVal)) (c : Call)
    (hc : c ∈ (createTicket toLowerCase cfg be body).2) (he : c.endpoint = .issueCreate) :
    ∃ reporterAccountId priorityId doc name ps,
      (userStage cfg be body).1 = some reporterAccountId
        ∧ (priorityStage toLowerCase cfg be body).1 = some priorityId
        ∧ descriptionStage body = some doc
        ∧ c = issueStageCall cfg body reporterAccountId priorityId doc
        ∧ getProp (.obj body) "priority" = .str name
        ∧ be.listPriorities (userStage cfg be body).2 (priorityListCall cfg) = some ps
        ∧ (objectPrototype (toLowerCase name) = .undefined →
            ∃ p ∈ ps, toLowerCase p.name = toLowerCase name ∧ priorityId = .str p.id) := by
  cases hv : passesValidation body with
  | false =>
    rw [createTicket_of_not_valid toLowerCase cfg be body hv] at hc
    simp at hc
  | true =>
    rw [createTicket_stages toLowerCase cfg be body hv] at hc
    have hp := getPriorityIdByName_calls toLowerCase cfg be (userStage cfg be body).2
      (getProp (.obj body) "priority")
    have hnotuser : c ∉ (userStage cfg be body).2 :=
      fun hmem => userStage_no_issueCreate cfg be body c hmem he
    have hnotprio : c ∉ (priorityStage toLowerCase cfg be body).2 := by
      intro hmem
      unfold priorityStage at hmem
      rw [hp] at hmem
      simp only [List.mem_singleton] at hmem
      rw [hmem] at he
      simp [priorityListCall] at he
    cases hur : (userStage cfg be body).1 with
    | none =>
      rw [hur] at hc
      exact absurd hc hnotuser
    | some acc =>
      rw [hur] at hc
      simp only at hc
      cases hpr : (priorityStage toLowerCase cfg be body).1 with
      | none =>
        rw [hpr] at hc
        simp only [List.mem_append] at hc
        rcases hc with hc | hc
        · exact absurd hc hnotuser
        · exact absurd hc hnotprio
      | some pid =>
        rw [hpr] at hc
        simp only at hc
        cases hd : descriptionStage body with
        | none =>
          rw [hd] at hc
          simp only [List.mem_append] at hc
          rcases hc with hc | hc
          · exact absurd hc hnotuser
          · exact absurd hc hnotprio
        | some doc =>
          rw [hd] at hc
          simp only at hc
          have hcall : c = issueStageCall cfg body acc pid doc := by
            split at hc <;>
              simp only [List.mem_append, List.mem_singleton] at hc <;>
              rcases hc with (hc | hc) | hc
            · exact absurd hc hnotuser
            · exact absurd hc hnotprio
            · exact hc
            · exact absurd hc hnotuser
            · exact absurd hc hnotprio
            · exact hc
          have hq : getPriorityIdByName toLowerCase cfg be (userStage cfg be body).2
              (getProp (.obj body) "priority") = (some pid, [priorityListCall cfg]) := by
            apply Prod.ext
            · exact hpr
            · exact hp
          obtain ⟨name, ps, hname, hps, _, hres⟩ :=
            getPriorityIdByName_resolved toLowerCase _ _ _ _ _ _ hq
          exact ⟨acc, pid, doc, name, ps, rfl, rfl, rfl, hcall, hname, hps, hres⟩

/-- C6: the code departs from the claim at the priority name `constructor`.
Against a backend whose only priority is High (id 2) the request reaches the
issue-creation call, and the `priority.id` of its payload is the function
inherited from `Object.prototype`, which is the identifier of no backend
priority. The other fields of the payload are as the claim says. -/
theorem createTicket_constructor_payload :
    (createTicket asciiLowerCase sampleConfig sampleBackend bodyConstructor).2.getLast?
        = some (issueCreateCall sampleConfig (.obj [
            ("project", .obj [("key", .str "INT")]),
            ("summary", .str "Sync fails"),
            ("issuetype", .obj [("name", .str "Integration")]),
            ("priority", .obj [("id", .func "Object")]),
            ("description", descriptionDoc "Sync fails" "constructor" "https://x/1" "orders"
              "alice"),
            ("reporter", .obj [("accountId", .str "acc-1")]),
            ("customfield_10034", .str "alice"),
            ("customfield_10035", .str "orders"),
            ("customfield_10036", .str "https://x/1")]))
      ∧ sampleBackend.listPriorities
          [userSearchCall sampleConfig "a@b.com", userCreateCall sampleConfig (.str "a@b.com")]
          (priorityListCall sampleConfig) = some [⟨"High", "2"⟩]
      ∧ (∀ p ∈ [Priority.mk "High" "2"], JSVal.func "Object" ≠ .str p.id) := by
  refine ⟨rfl, rfl, ?_⟩
  intro p _ h
  cases h

/-- C7: a create-ticket request answered with status 200 ended with an
issue-creation call that the backend accepted, and the body of the response is
the object with `issueKey`, the key the backend returned, and `issueUrl`, the
configured base URL followed by `/browse/` and that key. -/
theorem createTicket_success_response (toLowerCase : String → String) (cfg : Config)
    (be : Backend) (body : List (String × JSVal))
    (h : (createTicket toLowerCase cfg be body).1.status = 200) :
    ∃ before call created,
      (createTicket toLowerCase cfg be body).2 = before ++ [call]
        ∧ call.endpoint = .issueCreate
        ∧ be.createIssue before call = some created
        ∧ (createTicket toLowerCase cfg be body).1.body
          = .obj [("issueKey", .str created.key),
              ("issueUrl", .str (envText cfg.JIRA_BASE_URL ++ "/browse/" ++ created.key))] := by
  cases hv : passesValidation body with
  | false =>
    rw [createTicket_of_not_valid toLowerCase cfg be body hv] at h
    simp [badRequest] at h
  | true =>
    rw [createTicket_stages toLowerCase cfg be body hv] at h ⊢
    cases hur : (userStage cfg be body).1 with
    | none =>
      rw [hur] at h
      simp [createError] at h
    | some acc =>
      rw [hur] at h
      simp only at h ⊢
      cases hpr : (priorityStage toLowerCase cfg be body).1 with
      | none =>
        rw [hpr] at h
        simp [createError] at h
      | some pid =>
        rw [hpr] at h
        simp only at h ⊢
        cases hd : descriptionStage body with
        | none =>
          rw [hd] at h
          simp [createError] at h
        | some doc =>
          rw [hd] at h
          simp only at h ⊢
          cases hci : be.createIssue
              ((userStage cfg be body).2 ++ (priorityStage toLowerCase cfg be body).2)
              (issueStageCall cfg body acc pid doc) with
          | none =>
            rw [hci] at h
            simp [createError] at h
          | some created =>
            exact ⟨_, _, created, rfl, rfl, hci, rfl⟩

/-- The scenario of the specification: the response carries the key INT-7 and
its browse URL. -/
theorem createTicket_success_response_witness :
    (createTicket asciiLowerCase sampleConfig sampleBackend sampleBody).1.status = 200
      ∧ (createTicket asciiLowerCase sampleConfig sampleBackend sampleBody).1.body
          = .obj [("issueKey", .str "INT-7"),
              ("issueUrl", .str "https://jira.example/browse/INT-7")]
      ∧ ∃ before call created,
          (createTicket asciiLowerCase sampleConfig sampleBackend sampleBody).2 = before ++ [call]
            ∧ call.endpoint = .issueCreate
            ∧ sampleBackend.createIssue before call = some created
            ∧ (createTicket asciiLowerCase sampleConfig sampleBackend sampleBody).1.body
              = .obj [("issueKey", .str created.key),
                  ("issueUrl",
                    .str (envText sampleConfig.JIRA_BASE_URL ++ "/browse/" ++ created.key))] :=
  ⟨by decide, rfl,
    createTicket_success_response asciiLowerCase sampleConfig sampleBackend sampleBody
      (by decide)⟩

/-! ## `GET /tickets` -/

/-- The default of a destructuring applies to an absent query parameter. -/
theorem withDefault_of_lookup_none (query : List (String × JSVal)) (k : String) (d : JSVal)
    (hk : objectPrototype k = .undefined) (h : query.lookup k = none) :
    withDefault (getProp (.obj query) k) d = d := by
  simp [getProp, h, hk, withDefault]

/-- A query parameter that is present is forwarded as it is. -/
theorem withDefault_of_lookup_some (query : List (String × JSVal)) (k : String) (d v : JSVal)
    (h : query.lookup k = some v) (hv : v ≠ .undefined) :
    withDefault (getProp (.obj query) k) d = v := by
  simp only [getProp, h]
  cases v <;> first | rfl | exact absurd rfl hv

/-- C8, as stated, fails: for the query `reportedBy=alice`, without `startAt`
and `maxResults`, a backend whose search succeeds with the offset 5 and the
page size 50 gets these two values relayed in the response, not 0 and 10. -/
theorem getTickets_defaults_not_echoed :
    queryAlice.lookup "startAt" = none ∧ queryAlice.lookup "maxResults" = none
      ∧ (getTickets sampleConfig shiftedBackend queryAlice).1.status = 200
      ∧ getProp (getTickets sampleConfig shiftedBackend queryAlice).1.body "startAt" = .num "5"
      ∧ getProp (getTickets sampleConfig shiftedBackend queryAlice).1.body "maxResults"
        = .num "50"
      ∧ ¬ (getProp (getTickets sampleConfig shiftedBackend queryAlice).1.body "startAt"
            = .num "0"
          ∧ getProp (getTickets sampleConfig shiftedBackend queryAlice).1.body "maxResults"
            = .num "10") := by
  refine ⟨rfl, rfl, by decide, rfl, rfl, ?_⟩
  intro h
  have h5 : getProp (getTickets sampleConfig shiftedBackend queryAlice).1.body "startAt"
      = .num "5" := rfl
  rw [h5] at h
  exact absurd h.1 (by simp)

/-- C8, amended: for a GET /tickets request that carries neither `startAt` nor
`maxResults`, whose reporter has a string conversion and whose backend search
succeeds, the single outbound call carries the offset 0 and the page size 10,
and the response relays, next to the issue list and the total, the `startAt`
and `maxResults` of the backend's answer, whatever the issue list is: they are
0 and 10 when the backend answers with the values it was sent. -/
theorem getTickets_default_pagination (cfg : Config) (be : Backend)
    (query : List (String × JSVal)) (reporter : String) (page : SearchPage)
    (hs : query.lookup "startAt" = none) (hm : query.lookup "maxResults" = none)
    (hr : toStr (getProp (.obj query) "reportedBy") = some reporter)
    (hok : be.searchIssues [] (issueSearchCall cfg reporter (.num "0") (.num "10"))
      = some page) :
    getTickets cfg be query
        = (⟨200, .obj [("issues", page.issues), ("total", page.total),
              ("startAt", page.startAt), ("maxResults", page.maxResults)]⟩,
            [issueSearchCall cfg reporter (.num "0") (.num "10")])
      ∧ getProp (issueSearchCall cfg reporter (.num "0") (.num "10")).params "startAt"
        = .num "0"
      ∧ getProp (issueSearchCall cfg reporter (.num "0") (.num "10")).params "maxResults"
        = .num "10"
      ∧ (page.startAt = .num "0" → page.maxResults = .num "10" →
          getProp (getTickets cfg be query).1.body "startAt" = .num "0"
            ∧ getProp (getTickets cfg be query).1.body "maxResults" = .num "10") := by
  have hget : getTickets cfg be query
      = (⟨200, .obj [("issues", page.issues), ("total", page.total),
            ("startAt", page.startAt), ("maxResults", page.maxResults)]⟩,
          [issueSearchCall cfg reporter (.num "0") (.num "10")]) := by
    simp only [getTickets]
    rw [withDefault_of_lookup_none query "startAt" _ rfl hs,
      withDefault_of_lookup_none query "maxResults" _ rfl hm, hr]
    simp only
    rw [hok]
  refine ⟨hget, rfl, rfl, ?_⟩
  intro h0 h10
  rw [hget]
  exact ⟨h0, h10⟩

/-- Without pagination parameters the search carries 0 and 10, and the
response carries what the backend answered. -/
theorem getTickets_default_pagination_witness :
    getTickets sampleConfig sampleBackend queryAlice
        = (⟨200, .obj [("issues", .arr []), ("total", .num "0"), ("startAt", .num "0"),
              ("maxResults", .num "10")]⟩,
            [issueSearchCall sampleConfig "alice" (.num "0") (.num "10")])
      ∧ getTickets sampleConfig shiftedBackend queryAlice
        = (⟨200, .obj [("issues", .arr [.obj [("key", .str "INT-7")]]), ("total", .num "1"),
              ("startAt", .num "5"), ("maxResults", .num "50")]⟩,
            [issueSearchCall sampleConfig "alice" (.num "0") (.num "10")]) :=
  ⟨(getTickets_default_pagination sampleConfig sampleBackend queryAlice "alice"
      ⟨.arr [], .num "0", .num "0", .num "10"⟩ rfl rfl rfl rfl).1,
    (getTickets_default_pagination sampleConfig shiftedBackend queryAlice "alice"
      ⟨.arr [.obj [("key", .str "INT-7")]], .num "1", .num "5", .num "50"⟩ rfl rfl rfl rfl).1⟩

/-- A reporter without a string conversion ends the request before any call,
with the 500 response of the tickets handler. -/
theorem getTickets_of_opaque_reporter (cfg : Config) (be : Backend)
    (query : List (String × JSVal)) (h : toStr (getProp (.obj query) "reportedBy") = none) :
    getTickets cfg be query = (⟨500, .str "Error fetching tickets"⟩, []) := by
  simp only [getTickets, h]
  rfl

/-- C9: a GET /tickets request with the reporter value `r` issues exactly one
outbound call, the issue search, whose parameters are the query expression
`reporter="r"`, the fixed field list, and `startAt` and `maxResults`: the
request's own values unchanged when present, 0 and 10 when omitted. -/
theorem getTickets_search_call (cfg : Config) (be : Backend) (query : List (String × JSVal))
    (r : String) (hr : query.lookup "reportedBy" = some (.str r)) :
    ∃ startAt maxResults,
      (getTickets cfg be query).2
          = [{ endpoint := .issueSearch
               url := envText cfg.JIRA_BASE_URL ++ "/rest/api/3/search"
               params := .obj [("jql", .str ("reporter=\"" ++ r ++ "\"")),
                 ("fields", .str "summary,status,priority,key,customfield_10044,customfield_10035"),
                 ("startAt", startAt), ("maxResults", maxResults)]
               data := .undefined
               headers := headers cfg }]
        ∧ (query.lookup "startAt" = none → startAt = .num "0")
        ∧ (∀ v, query.lookup "startAt" = some v → v ≠ .undefined → startAt = v)
        ∧ (query.lookup "maxResults" = none → maxResults = .num "10")
        ∧ (∀ v, query.lookup "maxResults" = some v → v ≠ .undefined → maxResults = v) := by
  refine ⟨withDefault (getProp (.obj query) "startAt") (.num "0"),
    withDefault (getProp (.obj query) "maxResults") (.num "10"), ?_,
    withDefault_of_lookup_none query "startAt" _ rfl,
    fun v h hv => withDefault_of_lookup_some query "startAt" _ v h hv,
    withDefault_of_lookup_none query "maxResults" _ rfl,
    fun v h hv => withDefault_of_lookup_some query "maxResults" _ v h hv⟩
  have hrep : toStr (getProp (.obj query) "reportedBy") = some r := by
    simp [getProp, hr, toStr]
  simp only [getTickets, hrep]
  split <;> rfl

/-- The query `reportedBy=alice` gives the expression `reporter="alice"` with
the defaults; given pagination values are forwarded as the strings they are. -/
theorem getTickets_search_call_witness :
    queryAlice.lookup "reportedBy" = some (.str "alice")
      ∧ (getTickets sampleConfig sampleBackend queryAlice).2
        = [{ endpoint := .issueSearch
             url := "https://jira.example/rest/api/3/search"
             params := .obj [("jql", .str "reporter=\"alice\""),
               ("fields", .str "summary,status,priority,key,customfield_10044,customfield_10035"),
               ("startAt", .num "0"), ("maxResults", .num "10")]
             data := .undefined
             headers := headers sampleConfig }]
      ∧ (getTickets sampleConfig sampleBackend queryAlicePaged).2
        = [{ endpoint := .issueSearch
             url := "https://jira.example/rest/api/3/search"
             params := .obj [("jql", .str "reporter=\"alice\""),
               ("fields", .str "summary,status,priority,key,customfield_10044,customfield_10035"),
               ("startAt", .str "20"), ("maxResults", .str "5")]
             data := .undefined
             headers := headers sampleConfig }]
      ∧ ∃ startAt maxResults,
          (getTickets sampleConfig sampleBackend queryAlice).2
              = [{ endpoint := .issueSearch
                   url := envText sampleConfig.JIRA_BASE_URL ++ "/rest/api/3/search"
                   params := .obj [("jql", .str ("reporter=\"" ++ "alice" ++ "\"")),
                     ("fields",
                       .str "summary,status,priority,key,customfield_10044,customfield_10035"),
                     ("startAt", startAt), ("maxResults", maxResults)]
                   data := .undefined
                   headers := headers sampleConfig }]
            ∧ (queryAlice.lookup "startAt" = none → startAt = .num "0")
            ∧ (∀ v, queryAlice.lookup "startAt" = some v → v ≠ .undefined → startAt = v)
            ∧ (queryAlice.lookup "maxResults" = none → maxResults = .num "10")
            ∧ (∀ v, queryAlice.lookup "maxResults" = some v → v ≠ .undefined →
                maxResults = v) :=
  ⟨rfl, rfl, rfl, getTickets_search_call sampleConfig sampleBackend queryAlice "alice" rfl⟩

/-! ## Failure propagation -/

/-- The handler on a validated request whose identity resolution throws. -/
theorem createTicket_of_userStage_failed (toLowerCase : String → String) (cfg : Config)
    (be : Backend) (body : List (String × JSVal)) (calls : List Call)
    (hvalid : passesValidation body = true) (h : userStage cfg be body = (none, calls)) :
    createTicket toLowerCase cfg be body = (createError, calls) := by
  rw [createTicket_stages toLowerCase cfg be body hvalid, h]

/-- C10: on a create-ticket request that passes validation the call sites come
in the order user search, account creation, priority enumeration, issue
creation, each at most once, and every failure ends the request with status
500 and the text 'Error creating ticket', after the calls made so far and no
other. That is so when the email has no string conversion (no call), when the
backend rejects the user search (last call), when it rejects the account
creation (last call), when it rejects the priority enumeration (last call),
when priority resolution fails for any reason (the enumeration is the last
call), when the description cannot be built (the enumeration is the last call)
and when the backend rejects the issue creation (last call). A validated
request that is not answered with 200 gets exactly that response. -/
theorem createTicket_abort (toLowerCase : String → String) (cfg : Config) (be : Backend)
    (body : List (String × JSVal)) (hvalid : passesValidation body = true) :
    (endpoints (createTicket toLowerCase cfg be body).2
          <+: [.userSearch, .userCreate, .priorityList, .issueCreate]
        ∨ endpoints (createTicket toLowerCase cfg be body).2
          <+: [.userSearch, .priorityList, .issueCreate])
      ∧ (toStr (getProp (getProp (.obj body) "user") "email") = none →
          createTicket toLowerCase cfg be body = (⟨500, .str "Error creating ticket"⟩, []))
      ∧ (∀ query, toStr (getProp (getProp (.obj body) "user") "email") = some query →
          be.searchUsers [] (userSearchCall cfg query) = none →
          createTicket toLowerCase cfg be body
            = (⟨500, .str "Error creating ticket"⟩, [userSearchCall cfg query]))
      ∧ (∀ query, toStr (getProp (getProp (.obj body) "user") "email") = some query →
          be.searchUsers [] (userSearchCall cfg query) = some [] →
          be.createUser [userSearchCall cfg query]
            (userCreateCall cfg (getProp (getProp (.obj body) "user") "email")) = none →
          createTicket toLowerCase cfg be body
            = (⟨500, .str "Error creating ticket"⟩,
                [userSearchCall cfg query,
                  userCreateCall cfg (getProp (getProp (.obj body) "user") "email")]))
      ∧ (∀ reporterAccountId, (userStage cfg be body).1 = some reporterAccountId →
          be.listPriorities (userStage cfg be body).2 (priorityListCall cfg) = none →
          createTicket toLowerCase cfg be body
            = (⟨500, .str "Error creating ticket"⟩,
                (userStage cfg be body).2 ++ [priorityListCall cfg]))
      ∧ (∀ reporterAccountId, (userStage cfg be body).1 = some reporterAccountId →
          (priorityStage toLowerCase cfg be body).1 = none →
          createTicket toLowerCase cfg be body
            = (⟨500, .str "Error creating ticket"⟩,
                (userStage cfg be body).2 ++ [priorityListCall cfg]))
      ∧ (∀ reporterAccountId priorityId,
          (userStage cfg be body).1 = some reporterAccountId →
          (priorityStage toLowerCase cfg be body).1 = some priorityId →
          descriptionStage body = none →
          createTicket toLowerCase cfg be body
            = (⟨500, .str "Error creating ticket"⟩,
                (userStage cfg be body).2 ++ [priorityListCall cfg]))
      ∧ (∀ reporterAccountId priorityId doc,
          (userStage cfg be body).1 = some reporterAccountId →
          (priorityStage toLowerCase cfg be body).1 = some priorityId →
          descriptionStage body = some doc →
          be.createIssue ((userStage cfg be body).2 ++ [priorityListCall cfg])
            (issueStageCall cfg body reporterAccountId priorityId doc) = none →
          createTicket toLowerCase cfg be body
            = (⟨500, .str "Error creating ticket"⟩,
                (userStage cfg be body).2 ++ [priorityListCall cfg]
                  ++ [issueStageCall cfg body reporterAccountId priorityId doc]))
      ∧ ((createTicket toLowerCase cfg be body).1.status ≠ 200 →
          (createTicket toLowerCase cfg be body).1 = ⟨500, .str "Error creating ticket"⟩) := by
  have hp : (priorityStage toLowerCase cfg be body).2 = [priorityListCall cfg] :=
    getPriorityIdByName_calls toLowerCase cfg be _ _
  have hfail : ∀ acc, (userStage cfg be body).1 = some acc →
      (priorityStage toLowerCase cfg be body).1 = none →
      createTicket toLowerCase cfg be body
        = (⟨500, .str "Error creating ticket"⟩,
            (userStage cfg be body).2 ++ [priorityListCall cfg]) := by
    intro acc hu hpr
    rw [createTicket_stages toLowerCase cfg be body hvalid, hu]
    simp only
    rw [hpr, hp]
    rfl
  refine ⟨createTicket_endpoints toLowerCase cfg be body, ?_, ?_, ?_, ?_, hfail, ?_, ?_, ?_⟩
  · intro he
    apply createTicket_of_userStage_failed toLowerCase cfg be body [] hvalid
    simp only [userStage, getOrCreateUser, he]
  · intro query he hs
    apply createTicket_of_userStage_failed toLowerCase cfg be body _ hvalid
    simp only [userStage, getOrCreateUser, he, hs]
  · intro query he hs hc
    apply createTicket_of_userStage_failed toLowerCase cfg be body _ hvalid
    simp only [userStage, getOrCreateUser, he, hs, List.nil_append, hc]
  · intro acc hu hl
    apply hfail acc hu
    unfold priorityStage
    rw [getPriorityIdByName_of_rejected toLowerCase cfg be _ _ hl]
  · intro acc pid hu hpr hd
    rw [createTicket_stages toLowerCase cfg be body hvalid, hu]
    simp only
    rw [hpr]
    simp only
    rw [hd, hp]
    rfl
  · intro acc pid doc hu hpr hd hci
    rw [createTicket_stages toLowerCase cfg be body hvalid, hu]
    simp only
    rw [hpr]
    simp only
    rw [hd]
    simp only
    rw [hp, hci]
    rfl
  · intro hne
    rw [createTicket_stages toLowerCase cfg be body hvalid] at hne ⊢
    cases hu : (userStage cfg be body).1 with
    | none => rfl
    | some acc =>
      rw [hu] at hne
      simp only at hne ⊢
      cases hpr : (priorityStage toLowerCase cfg be body).1 with
      | none => rfl
      | some pid =>
        rw [hpr] at hne
        simp only at hne ⊢
        cases hd : descriptionStage body with
        | none => rfl
        | some doc =>
          rw [hd] at hne
          simp only at hne ⊢
          cases hci : be.createIssue
              ((userStage cfg be body).2 ++ (priorityStage toLowerCase cfg be body).2)
              (issueStageCall cfg body acc pid doc) with
          | none => rfl
          | some created =>
            rw [hci] at hne
            exact absurd rfl hne

/-- A rejected issue creation ends the request with the 500 response after
four calls, a rejected user search after one, a summary without a string
conversion after three and an email without one after none. -/
theorem createTicket_abort_witness :
    passesValidation sampleBody = true
      ∧ createTicket asciiLowerCase sampleConfig rejectingBackend sampleBody
        = (⟨500, .str "Error creating ticket"⟩,
            (userStage sampleConfig rejectingBackend sampleBody).2
              ++ [priorityListCall sampleConfig]
              ++ [issueStageCall sampleConfig sampleBody (.str "acc-1") (.str "2")
                    (descriptionDoc "Sync fails" "High" "https://x/1" "orders" "alice")])
      ∧ endpoints (createTicket asciiLowerCase sampleConfig rejectingBackend sampleBody).2
        = [.userSearch, .userCreate, .priorityList, .issueCreate]
      ∧ createTicket asciiLowerCase sampleConfig searchRejectingBackend sampleBody
        = (⟨500, .str "Error creating ticket"⟩, [userSearchCall sampleConfig "a@b.com"])
      ∧ createTicket asciiLowerCase sampleConfig sampleBackend bodyOpaqueSummary
        = (⟨500, .str "Error creating ticket"⟩,
            (userStage sampleConfig sampleBackend bodyOpaqueSummary).2
              ++ [priorityListCall sampleConfig])
      ∧ createTicket asciiLowerCase sampleConfig sampleBackend bodyOpaqueEmail
        = (⟨500, .str "Error creating ticket"⟩, []) :=
  ⟨by decide,
    (createTicket_abort asciiLowerCase sampleConfig rejectingBackend sampleBody
      (by decide)).2.2.2.2.2.2.2.1 (.str "acc-1") (.str "2") _ rfl rfl rfl rfl,
    by decide,
    (createTicket_abort asciiLowerCase sampleConfig searchRejectingBackend sampleBody
      (by decide)).2.2.1 "a@b.com" rfl rfl,
    (createTicket_abort asciiLowerCase sampleConfig sampleBackend bodyOpaqueSummary
      (by decide)).2.2.2.2.2.2.1 (.str "acc-1") (.str "2") rfl rfl rfl,
    (createTicket_abort asciiLowerCase sampleConfig sampleBackend bodyOpaqueEmail
      (by decide)).2.1 rfl⟩

end IntegrationBackend
